import Mathlib

/-!
Shallow embedding of the Gene-Characteristics-Identifier backend
(`src/backend/app.py`) and proofs about its orchestration logic.

The backend has four pieces, all embedded here:
  - `search_gene` (app.py lines 23-79): resolves a gene symbol through the
    NCBI eSearch endpoint, then fetches details through eSummary, and shapes
    the result into a ten-field dictionary with per-field fallbacks; every
    exception is caught and turned into an error dictionary.
  - `create_ai_summary` (lines 85-139): builds a fixed prompt from the gene
    record and posts it to the Gemini endpoint; always returns a string,
    falling back to text that embeds the upstream error.
  - the `/search` Flask handler (lines 145-189): validates the input,
    runs the two steps above in order and merges the outputs.
  - the `/test` Flask handler (lines 193-202): a constant health check.

The two outbound HTTP dependencies are modelled as oracle functions passed
in as arguments: the eSearch and eSummary calls as functions from the query
term (resp. the gene id) to a response, and the Gemini call as a function
from the prompt to a response.  A response is either `exn msg` (the
`requests` call or `.json()` parsing raised an exception whose `str` is
`msg`) or a parsed payload whose optional fields model missing JSON keys.

Note on line 48 of app.py: the statement `print(f"Found gene ID: {gene_sid}")`
reads the name `gene_sid`, which is never defined (the variable assigned on
line 47 is `gene_id`).  At runtime this raises
`NameError: name 'gene_sid' is not defined`, which the `except` clause on
line 77 catches, so on every input whose id list is non-empty `search_gene`
returns the error dictionary and never reaches the eSummary call.
`search_gene` below embeds the code as written; `search_gene_fixed` is the
same code with that one name read as `gene_id` (the evident intent, since
`gene_id` is used correctly everywhere else), used to state what the
success path does once it is reachable.
-/

namespace GeneApp

/-- A JSON scalar as it appears in the backend's response bodies: the
bodies built by `jsonify` hold strings and the boolean `True`. -/
inductive Val where
  | str (s : String)
  | bool (b : Bool)
deriving DecidableEq

/-- A JSON object, as an association list in insertion order (Python dicts
preserve insertion order). -/
abbrev Dict := List (String × Val)

/-- Keys of an object, in order. -/
def Dict.keys (d : Dict) : List String := d.map Prod.fst

/-- The membership test `k in d` used by the handler on line 164. -/
def Dict.hasKey (d : Dict) (k : String) : Bool := (d.lookup k).isSome

/-- Python's `str.strip()` with no argument: drop leading and trailing
whitespace.  Defined on the character list by structural recursion (the
library's `String.trim` is equivalent on the inputs in play but is defined
by well-founded recursion on positions, which proofs cannot evaluate). -/
def pyStrip (s : String) : String :=
  ⟨((s.data.dropWhile Char.isWhitespace).reverse.dropWhile Char.isWhitespace).reverse⟩

/-- Python's `str.upper()` on the ASCII data in play: uppercase each
character.  Defined on the character list for the same reason as
`pyStrip`. -/
def pyUpper (s : String) : String :=
  ⟨s.data.map Char.toUpper⟩

/-- An outbound HTTP exchange: either the call raised an exception
(transport failure, or `.json()` on a non-JSON body) whose `str` is carried,
or it produced a parsed payload. -/
inductive Upstream (α : Type) where
  | exn (msg : String)
  | ok (v : α)
deriving DecidableEq

/-- The `str` of a Python `KeyError` on key `k`: the repr of the key. -/
def keyError (k : String) : String := "'" ++ k ++ "'"

/-- The `str` of the `NameError` raised by line 48 of app.py. -/
def nameErrorMsg : String := "name 'gene_sid' is not defined"

/-- The `organism` sub-object of an eSummary gene record; `scientificname`
may be absent. -/
structure Organism where
  scientificname : Option String
deriving DecidableEq

/-- The fields `search_gene` reads from the eSummary record for one gene.
Every field is optional: `none` models the JSON key being absent, matching
the `.get` accesses on lines 65-74. -/
structure GeneInfo where
  name : Option String
  description : Option String
  summary : Option String
  chromosome : Option String
  maplocation : Option String
  otheraliases : Option (List String)
  mim : Option (List Nat)
  organism : Option Organism
  geneticsource : Option String
deriving DecidableEq

/-- The object under `esearchresult`; `idlist` may be absent (line 44 tests
membership before reading it). -/
structure EsearchInner where
  idlist : Option (List String)
deriving DecidableEq

/-- A parsed eSearch response body.  `esearchresult = none` models the key
being absent, in which case the subscript on line 44 raises a `KeyError`. -/
structure EsearchData where
  esearchresult : Option EsearchInner
deriving DecidableEq

/-- A parsed eSummary response body: the `result` object maps gene ids to
records; its absence makes the subscript on line 61 raise a `KeyError`. -/
structure EsummaryData where
  result : Option (List (String × GeneInfo))
deriving DecidableEq

/-- The ten-field gene dictionary built on lines 64-75.  In the source it is
a Python dict whose ten keys are always present; here it is a structure, and
`SearchGeneResult.dict` below renders it back as the dictionary. -/
structure GeneRecord where
  name : String
  gene_id : String
  description : String
  summary : String
  chromosome : String
  map_location : String
  aliases : String
  mim_number : String
  organism : String
  gene_type : String
deriving DecidableEq

/-- What `search_gene` returns: either the error dictionary
`{"error": msg}` (lines 45 and 79) or the ten-field record (lines 64-75). -/
inductive SearchGeneResult where
  | error (msg : String)
  | record (r : GeneRecord)
deriving DecidableEq

/-- The dictionary a `SearchGeneResult` stands for, key by key as the
source writes it. -/
def SearchGeneResult.dict : SearchGeneResult → Dict
  | .error msg => [("error", .str msg)]
  | .record r =>
      [("name", .str r.name),
       ("gene_id", .str r.gene_id),
       ("description", .str r.description),
       ("summary", .str r.summary),
       ("chromosome", .str r.chromosome),
       ("map_location", .str r.map_location),
       ("aliases", .str r.aliases),
       ("mim_number", .str r.mim_number),
       ("organism", .str r.organism),
       ("gene_type", .str r.gene_type)]

/-- The ten keys of the success dictionary, in the order of lines 64-75. -/
def recordKeys : List String :=
  ["name", "gene_id", "description", "summary", "chromosome",
   "map_location", "aliases", "mim_number", "organism", "gene_type"]

/-- The eSearch query term built on line 36:
`f'{gene_name}[Gene Name] AND human[Organism]'`. -/
def esearchTerm (gene_name : String) : String :=
  gene_name ++ "[Gene Name] AND human[Organism]"

/-- Lines 64-75 of app.py: the record extraction with its per-field
fallbacks.  `gene_info.get(k, d)` becomes `Option.getD`; the conditional
expressions on lines 71-72 test Python truthiness of the fetched value, so
an absent key and an empty list both take the fallback branch. -/
def buildRecord (gene_name gene_id : String) (gene_info : GeneInfo) : GeneRecord :=
  { name := gene_info.name.getD gene_name
    gene_id := gene_id
    description := gene_info.description.getD "No description available"
    summary := gene_info.summary.getD "No summary available"
    chromosome := gene_info.chromosome.getD "Unknown"
    map_location := gene_info.maplocation.getD "Unknown"
    aliases :=
      match gene_info.otheraliases with
      | some (a :: rest) => String.intercalate ", " (a :: rest)
      | _ => "None"
    mim_number :=
      match gene_info.mim with
      | some (m :: rest) => String.intercalate ", " ((m :: rest).map toString)
      | _ => "Not available"
    organism :=
      match gene_info.organism with
      | some o => o.scientificname.getD "Homo sapiens"
      | none => "Homo sapiens"
    gene_type := gene_info.geneticsource.getD "Unknown" }

/-- Lines 23-79 of app.py, as written.  `esearchGet` is the outbound
eSearch call as a function of the query term; `esummaryGet` the eSummary
call as a function of the gene id.  The `try` block catches every
exception and returns `{"error": str(e)}` (lines 77-79), which covers the
transport/parse failures (`Upstream.exn`), the `KeyError` when
`esearchresult` is absent, and the `NameError` from line 48 described in
the file header: since that `NameError` is raised before the eSummary
call, the code as written never issues the second request and never
builds a record. -/
def search_gene (gene_name : String)
    (esearchGet : String → Upstream EsearchData)
    (esummaryGet : String → Upstream EsummaryData) : SearchGeneResult :=
  match esearchGet (esearchTerm gene_name) with
  | .exn e => .error e
  | .ok data =>
      match data.esearchresult with
      | none => .error (keyError "esearchresult")
      | some esr =>
          match esr.idlist with
          | none => .error "Gene not found"
          | some [] => .error "Gene not found"
          | some (_gene_id :: _) =>
              -- line 48 raises `NameError: name 'gene_sid' is not defined`,
              -- caught by the handler on line 77
              .error nameErrorMsg

/-- Lines 23-79 of app.py with the one-token slip on line 48 corrected
(`gene_sid` read as `gene_id`), so the print no longer raises and the
success path continues: eSummary fetch (lines 58-59), the two subscripts
of line 61 (each a `KeyError` if the key is absent), then the record
extraction of lines 64-75. -/
def search_gene_fixed (gene_name : String)
    (esearchGet : String → Upstream EsearchData)
    (esummaryGet : String → Upstream EsummaryData) : SearchGeneResult :=
  match esearchGet (esearchTerm gene_name) with
  | .exn e => .error e
  | .ok data =>
      match data.esearchresult with
      | none => .error (keyError "esearchresult")
      | some esr =>
          match esr.idlist with
          | none => .error "Gene not found"
          | some [] => .error "Gene not found"
          | some (gene_id :: _) =>
              match esummaryGet gene_id with
              | .exn e => .error e
              | .ok sd =>
                  match sd.result with
                  | none => .error (keyError "result")
                  | some res =>
                      match res.lookup gene_id with
                      | none => .error (keyError gene_id)
                      | some gene_info =>
                          .record (buildRecord gene_name gene_id gene_info)

/-- The `error` object of a Gemini response; its `message` may be absent
(line 134 reads it with `.get('message', 'Unknown error')`). -/
structure LlmError where
  message : Option String
deriving DecidableEq

/-- One element of the `candidates` array.  `wellFormed text` has the
shape `candidate['content']['parts'][0]['text']` expects; `malformed e`
deviates from it, so that chain of subscripts on line 131 raises an
exception whose `str` is `e` (caught on line 137). -/
inductive Candidate where
  | wellFormed (text : String)
  | malformed (excMsg : String)
deriving DecidableEq

/-- The outcome of the Gemini call: `exn` when `requests.post` or
`.json()` raised, else the parsed body, with its `candidates` array (an
absent key behaves like the empty array under the test on line 130, so
both are modelled as `[]`) and its optional `error` object. -/
inductive LlmResult where
  | exn (msg : String)
  | parsed (candidates : List Candidate) (err : Option LlmError)
deriving DecidableEq

/-- Lines 99-110 of app.py: the prompt template.  The source reads the
fields with `.get(..., default)`, but `create_ai_summary` is only called
on the complete success dictionary, whose ten keys are always present, so
the defaults cannot fire and the fields are read directly.  Line 103
slices the summary to its first 500 characters. -/
def buildPrompt (gene_info : GeneRecord) : String :=
  "You are a bioinformatics expert. Create a brief 3–4 sentence summary for researchers and clinicians.\n\nGene: "
    ++ gene_info.name
    ++ "\nDescription: " ++ gene_info.description
    ++ "\nDetails: " ++ gene_info.summary.take 500
    ++ "\n\nFocus on:\n1. What this gene does (functional role)\n2. Any disease connections\n3. Clinical significance\n\nKeep it concise and professional."

/-- Lines 85-139 of app.py.  `llmPost` is the outbound Gemini call as a
function of the prompt.  The `try` covers the whole body, so every failure
becomes a returned fallback string and the function always returns text:
a well-formed first candidate returns its text verbatim (line 132); no
candidates returns the message of the response's `error` object wrapped in
the `Could not generate` fallback (lines 134-135); a transport/parse
failure or a malformed candidate shape returns the exception text wrapped
in the `AI summary unavailable` fallback (line 139). -/
def create_ai_summary (llmPost : String → LlmResult) (gene_info : GeneRecord) : String :=
  match llmPost (buildPrompt gene_info) with
  | .exn e => "AI summary unavailable: " ++ e
  | .parsed candidates err =>
      match candidates with
      | [] =>
          let error_msg :=
            match err with
            | some eo => eo.message.getD "Unknown error"
            | none => "Unknown error"
          "Could not generate AI summary. Error: " ++ error_msg
      | .wellFormed text :: _ => text
      | .malformed e :: _ => "AI summary unavailable: " ++ e

/-- What a handler invocation produces: an HTTP response with a status and
a JSON body, or an exception that escapes the handler function (Flask's
machinery then builds an error page outside the application code). -/
inductive Outcome where
  | resp (status : Nat) (body : Dict)
  | uncaught (excMsg : String)
deriving DecidableEq

/-- The status of an outcome, when it is a response. -/
def Outcome.statusOf : Outcome → Option Nat
  | .resp st _ => some st
  | .uncaught _ => none

/-- Whether the handler returned a response at all (no exception escaped). -/
def Outcome.isResp : Outcome → Bool
  | .resp _ _ => true
  | .uncaught _ => false

/-- The body of an outcome, when it is a response. -/
def Outcome.bodyOf : Outcome → Option Dict
  | .resp _ b => some b
  | .uncaught _ => none

/-- The value of the `gene` key of a JSON object body.  A non-string value
carries the text of the `AttributeError` that `.strip()` on it raises at
line 155. -/
inductive ReqVal where
  | str (s : String)
  | nonStr (excMsg : String)
deriving DecidableEq

/-- The body of a POST /search request, as `request.get_json()` sees it on
line 154: `invalid` is an absent or unparsable body (`get_json` raises a
`BadRequest`, carried as its text), `jsonNull` the JSON value `null`
(`get_json` returns `None`), `nonObject` a parsed body that is not an
object (carrying the text of the `AttributeError` that `.get` on it
raises), and `obj g` an object whose `gene` key holds `g` (absent when
`g = none`). -/
inductive ReqBody where
  | invalid (excMsg : String)
  | jsonNull
  | nonObject (excMsg : String)
  | obj (gene : Option ReqVal)
deriving DecidableEq

/-- The `str` of the `AttributeError` raised by `None.get` on line 155. -/
def noneGetMsg : String := "'NoneType' object has no attribute 'get'"

/-- Lines 171-186 of app.py: the merged success response body. -/
def resultDict (gene_data : GeneRecord) (ai_summary : String) : Dict :=
  [("success", .bool true),
   ("gene", .str gene_data.name),
   ("gene_id", .str gene_data.gene_id),
   ("description", .str gene_data.description),
   ("summary", .str gene_data.summary),
   ("chromosome", .str gene_data.chromosome),
   ("map_location", .str gene_data.map_location),
   ("aliases", .str gene_data.aliases),
   ("mim_number", .str gene_data.mim_number),
   ("organism", .str gene_data.organism),
   ("gene_type", .str gene_data.gene_type),
   ("ai_summary", .str ai_summary),
   ("source", .str "NCBI Gene Database"),
   ("ai_model", .str "Google Gemini 2.0 Flash")]

/-- Lines 163-189 of app.py: what the handler does with the value
`search_gene` returned.  The source branches on `"error" in gene_data`
(line 164); here the branch is on the constructor, and the theorem for the
invariant claim shows the two tests agree on every value `search_gene` can
return.  On the error branch the error dictionary itself is the 404 body
(line 165); otherwise the summary is generated (line 168) and the merged
body returned with the implicit 200 of `jsonify` (line 189). -/
def finishSearch (gene_data : SearchGeneResult) (llmPost : String → LlmResult) : Outcome :=
  match gene_data with
  | .error msg => .resp 404 (SearchGeneResult.error msg).dict
  | .record r =>
      let ai_summary := create_ai_summary llmPost r
      .resp 200 (resultDict r ai_summary)

/-- Lines 154-189 of app.py, parametrised by the lookup function so that
the handler as written (`handle_search`, using `search_gene`) and the
handler over the typo-corrected lookup (`handle_search_fixed`) share one
body.  Line 155 normalizes the input with `.strip().upper()` and
line 157 rejects an empty result with the 400 body of line 158; the
absent-body, null-body, non-object-body and non-string-gene cases all
raise out of the handler, as described at `ReqBody`. -/
def handleSearchWith
    (lookup : String → (String → Upstream EsearchData) →
      (String → Upstream EsummaryData) → SearchGeneResult)
    (body : ReqBody)
    (esearchGet : String → Upstream EsearchData)
    (esummaryGet : String → Upstream EsummaryData)
    (llmPost : String → LlmResult) : Outcome :=
  match body with
  | .invalid e => .uncaught e
  | .jsonNull => .uncaught noneGetMsg
  | .nonObject e => .uncaught e
  | .obj gene =>
      match gene with
      | some (.nonStr e) => .uncaught e
      | some (.str s) =>
          let gene_name := pyUpper (pyStrip s)
          if gene_name = "" then
            .resp 400 [("error", .str "Please enter a gene name")]
          else
            finishSearch (lookup gene_name esearchGet esummaryGet) llmPost
      | none =>
          -- `data.get('gene', '')` yields `''`, which strips to `''`
          .resp 400 [("error", .str "Please enter a gene name")]

/-- The POST /search handler as the source has it. -/
def handle_search : ReqBody → (String → Upstream EsearchData) →
    (String → Upstream EsummaryData) → (String → LlmResult) → Outcome :=
  handleSearchWith search_gene

/-- The POST /search handler over the lookup with line 48 corrected. -/
def handle_search_fixed : ReqBody → (String → Upstream EsearchData) →
    (String → Upstream EsummaryData) → (String → LlmResult) → Outcome :=
  handleSearchWith search_gene_fixed

/-- Lines 193-202 of app.py: the GET /test health-check handler.  It takes
no input, reads no state and returns the constant body with the implicit
200 of `jsonify`. -/
def test : Outcome :=
  .resp 200
    [("status", .str "Server is running!"),
     ("message", .str "Bio Re:code API v1.0"),
     ("ai_model", .str "Google Gemini 2.0 Flash")]

/-- A gene record with every optional upstream field absent: exercises all
the per-field fallbacks of lines 64-75. -/
def emptyGeneInfo : GeneInfo :=
  { name := none, description := none, summary := none, chromosome := none
    maplocation := none, otheraliases := none, mim := none, organism := none
    geneticsource := none }

/-- A gene record carrying alias and MIM lists. -/
def listyGeneInfo : GeneInfo :=
  { emptyGeneInfo with otheraliases := some ["IRIS", "PSCA"], mim := some [113705] }

/-- An eSearch oracle that always answers with the given id list. -/
def idlistResp (ids : List String) : String → Upstream EsearchData :=
  fun _ => .ok ⟨some ⟨some ids⟩⟩

/-- An eSummary oracle whose result object holds one record under `gene_id`. -/
def detailsResp (gene_id : String) (gene_info : GeneInfo) :
    String → Upstream EsummaryData :=
  fun _ => .ok ⟨some [(gene_id, gene_info)]⟩

/-- An eSearch oracle whose transport always fails. -/
def esearchDown : String → Upstream EsearchData := fun _ => .exn "Connection refused"

/-- An eSummary oracle whose transport always fails. -/
def esummaryDown : String → Upstream EsummaryData := fun _ => .exn "Connection refused"

/-- A Gemini oracle whose transport always fails. -/
def llmDown : String → LlmResult := fun _ => .exn "Connection refused"

/-- A Gemini oracle that always returns one well-formed candidate. -/
def llmOk (text : String) : String → LlmResult :=
  fun _ => .parsed [.wellFormed text] none

/-- An eSearch oracle that resolves exactly the term the source builds for
the symbol BRCA1, and fails on every other query term: reaching its id
list witnesses that the lookup was issued with the normalized symbol. -/
def brca1Esearch : String → Upstream EsearchData :=
  fun term =>
    if term = "BRCA1[Gene Name] AND human[Organism]" then .ok ⟨some ⟨some ["672"]⟩⟩
    else .exn "unexpected query term"

/-- The record built from an all-absent upstream record for BRCA1: every
field takes its documented fallback. -/
def fallbackRecord : GeneRecord := buildRecord "BRCA1" "672" emptyGeneInfo

/-- Whether a Gemini outcome is one of the failure behaviours of the
claim: unreachable service, transport or parse error, no candidates, or a
first candidate whose shape the extraction chain rejects. -/
def llmFailed : LlmResult → Bool
  | .exn _ => true
  | .parsed [] _ => true
  | .parsed (.malformed _ :: _) _ => true
  | .parsed (.wellFormed _ :: _) _ => false

/-- The upstream error or exception text of a failed Gemini outcome, as
the source reads it: the exception text for a transport/parse failure or a
malformed candidate, and the `error.message` of the body (defaulted to
`Unknown error`) when there are no candidates. -/
def llmErrText : LlmResult → Option String
  | .exn e => some e
  | .parsed [] err =>
      some (match err with
            | some eo => eo.message.getD "Unknown error"
            | none => "Unknown error")
  | .parsed (.malformed e :: _) _ => some e
  | .parsed (.wellFormed _ :: _) _ => none

/-- Shape of a `search_gene` value as a dictionary: either the one-key
error object, or the ten-key record object without an `error` key. -/
def dictShape (gd : SearchGeneResult) : Prop :=
  (∃ m, gd = .error m ∧ gd.dict = [("error", .str m)])
  ∨ (∃ r, gd = .record r ∧ gd.dict.keys = recordKeys
      ∧ gd.dict.lookup "error" = none)

/-- The orchestrator's `"error" in gene_data` test (line 164) agrees with
lookup failure, and the 404 branch is taken exactly when it holds. -/
def errorDiscriminates (gd : SearchGeneResult) (llmPost : String → LlmResult) : Prop :=
  (Dict.hasKey gd.dict "error" = true ↔ ∃ m, gd = .error m)
  ∧ ((finishSearch gd llmPost).statusOf = some 404 ↔ Dict.hasKey gd.dict "error" = true)

/-- An eSearch oracle whose parsed body lacks the `esearchresult` key. -/
def esearchNoKey : String → Upstream EsearchData := fun _ => .ok ⟨none⟩

/-- An eSummary oracle whose parsed body lacks the `result` key. -/
def esummaryNoKey : String → Upstream EsummaryData := fun _ => .ok ⟨none⟩

/-- An eSummary oracle whose `result` object has no entry for any id. -/
def esummaryNoRecord : String → Upstream EsummaryData := fun _ => .ok ⟨some []⟩

section Helpers

/-- A string with a non-empty prefix is non-empty. -/
theorem append_left_ne_empty (p t : String) (hp : p ≠ "") : p ++ t ≠ "" := by
  intro h
  apply hp
  have hl := congrArg String.length h
  rw [String.length_append] at hl
  have hp0 : p.length = 0 := by
    have : String.length "" = 0 := rfl
    omega
  cases p with
  | mk data =>
      cases data with
      | nil => rfl
      | cons c cs => simp [String.length] at hp0

/-- On a non-empty normalized symbol the handler proceeds to the lookup
and the finishing step. -/
theorem handleSearchWith_nonempty
    (lookup : String → (String → Upstream EsearchData) →
      (String → Upstream EsummaryData) → SearchGeneResult)
    (s : String) (h : ¬ pyUpper (pyStrip s) = "")
    (esearchGet : String → Upstream EsearchData)
    (esummaryGet : String → Upstream EsummaryData)
    (llmPost : String → LlmResult) :
    handleSearchWith lookup (.obj (some (.str s))) esearchGet esummaryGet llmPost =
      finishSearch (lookup (pyUpper (pyStrip s)) esearchGet esummaryGet) llmPost := by
  simp [handleSearchWith, h]

/-- Every `SearchGeneResult` renders to one of the two documented
dictionary shapes. -/
theorem dictShape_all (gd : SearchGeneResult) : dictShape gd := by
  cases gd with
  | error msg => exact Or.inl ⟨msg, rfl, rfl⟩
  | record r => exact Or.inr ⟨r, rfl, rfl, rfl⟩

/-- The membership test on `error` discriminates the two shapes, and the
404 branch is taken exactly on the error shape. -/
theorem errorDiscriminates_all (gd : SearchGeneResult) (llmPost : String → LlmResult) :
    errorDiscriminates gd llmPost := by
  cases gd with
  | error msg =>
      refine ⟨⟨fun _ => ⟨msg, rfl⟩, fun _ => rfl⟩, ⟨fun _ => rfl, fun _ => rfl⟩⟩
  | record r =>
      constructor
      · constructor
        · intro h
          simp [Dict.hasKey, SearchGeneResult.dict, List.lookup] at h
        · rintro ⟨m, hm⟩
          cases hm
      · constructor
        · intro h
          simp [finishSearch, Outcome.statusOf] at h
        · intro h
          simp [Dict.hasKey, SearchGeneResult.dict, List.lookup] at h

/-- The finishing step always yields a response, with status 404 or 200. -/
theorem finishSearch_isResp (gd : SearchGeneResult) (llmPost : String → LlmResult) :
    (finishSearch gd llmPost).isResp = true
    ∧ ((finishSearch gd llmPost).statusOf = some 404
        ∨ (finishSearch gd llmPost).statusOf = some 200) := by
  cases gd with
  | error msg => exact ⟨rfl, Or.inl rfl⟩
  | record r => exact ⟨rfl, Or.inr rfl⟩

/-- A handler run whose lookup came back as an error responds 404 with the
error dictionary as the body. -/
theorem handle_of_error
    (lookup : String → (String → Upstream EsearchData) →
      (String → Upstream EsummaryData) → SearchGeneResult)
    (s : String) (h : ¬ pyUpper (pyStrip s) = "")
    (esearchGet : String → Upstream EsearchData)
    (esummaryGet : String → Upstream EsummaryData)
    (llmPost : String → LlmResult) (msg : String)
    (hsg : lookup (pyUpper (pyStrip s)) esearchGet esummaryGet = .error msg) :
    handleSearchWith lookup (.obj (some (.str s))) esearchGet esummaryGet llmPost =
      .resp 404 [("error", .str msg)] := by
  rw [handleSearchWith_nonempty lookup s h esearchGet esummaryGet llmPost, hsg]
  rfl

end Helpers

/-- C1: on an input whose name search returns the non-empty id list
`["672"]` and whose details fetch holds a record for that id,
`search_gene` as written returns the error dictionary carrying the text of
the `NameError` raised by line 48 (which reads the undefined name
`gene_sid`) — it never constructs a record — whereas the same code with
that one token corrected to `gene_id` returns the complete ten-field
record with every documented fallback populated.  The lookup therefore
does satisfy "complete record or error", but the complete-record half is
unreachable in the code as written. -/
theorem C1_success_path_blocked_by_NameError :
    search_gene "BRCA1" (idlistResp ["672"]) (detailsResp "672" emptyGeneInfo) =
      .error nameErrorMsg
    ∧ search_gene_fixed "BRCA1" (idlistResp ["672"]) (detailsResp "672" emptyGeneInfo) =
      .record { name := "BRCA1", gene_id := "672",
                description := "No description available",
                summary := "No summary available",
                chromosome := "Unknown", map_location := "Unknown",
                aliases := "None", mim_number := "Not available",
                organism := "Homo sapiens", gene_type := "Unknown" } :=
  ⟨rfl, rfl⟩

/-- C2: for every gene value that is empty or whitespace after the
`.strip().upper()` normalization of line 155, and likewise for an object
body with no `gene` key, the handler answers 400 with exactly
`{"error": "Please enter a gene name"}`; the outcome is the same for every
choice of the three outbound oracles, so neither the gene database nor the
language model is consulted. -/
theorem C2_empty_input_400_no_outbound_call :
    ∀ (s : String) (esearchGet : String → Upstream EsearchData)
      (esummaryGet : String → Upstream EsummaryData) (llmPost : String → LlmResult),
      pyUpper (pyStrip s) = "" →
      handle_search (.obj (some (.str s))) esearchGet esummaryGet llmPost =
        .resp 400 [("error", .str "Please enter a gene name")]
      ∧ handle_search (.obj none) esearchGet esummaryGet llmPost =
        .resp 400 [("error", .str "Please enter a gene name")] := by
  intro s eo so lo h
  refine ⟨?_, rfl⟩
  simp [handle_search, handleSearchWith, h]

/-- Witness for C2 at the whitespace-only input `"   "` and concrete
failing oracles. -/
theorem C2_empty_input_400_no_outbound_call_witness :
    handle_search (.obj (some (.str "   "))) esearchDown esummaryDown llmDown =
      .resp 400 [("error", .str "Please enter a gene name")]
    ∧ handle_search (.obj none) esearchDown esummaryDown llmDown =
      .resp 400 [("error", .str "Please enter a gene name")] :=
  C2_empty_input_400_no_outbound_call "   " esearchDown esummaryDown llmDown rfl

/-- C3: for every gene record and every failing behaviour of the language
model (transport or parse failure, empty or absent candidate list, or a
malformed first candidate), `create_ai_summary` returns a non-empty
fallback string that embeds the upstream error or exception text — its
return type in this embedding is `String` because the source's `try`
covers the whole body, so it never raises — and the handler step that
receives a successful lookup still responds 200 with that string under the
`ai_summary` key. -/
theorem C3_summarizer_total_with_fallback :
    ∀ (r : GeneRecord) (llmPost : String → LlmResult),
      llmFailed (llmPost (buildPrompt r)) = true →
      create_ai_summary llmPost r ≠ ""
      ∧ (∃ m, llmErrText (llmPost (buildPrompt r)) = some m
          ∧ (create_ai_summary llmPost r = "AI summary unavailable: " ++ m
             ∨ create_ai_summary llmPost r = "Could not generate AI summary. Error: " ++ m))
      ∧ finishSearch (.record r) llmPost =
          .resp 200 (resultDict r (create_ai_summary llmPost r))
      ∧ (resultDict r (create_ai_summary llmPost r)).lookup "ai_summary" =
          some (.str (create_ai_summary llmPost r)) := by
  intro r lo h
  cases hcase : lo (buildPrompt r) with
  | exn e =>
      have hv : create_ai_summary lo r = "AI summary unavailable: " ++ e := by
        simp [create_ai_summary, hcase]
      refine ⟨?_, ⟨e, rfl, Or.inl hv⟩, rfl, rfl⟩
      rw [hv]
      exact append_left_ne_empty _ e (by decide)
  | parsed candidates err =>
      cases candidates with
      | nil =>
          cases err with
          | none =>
              have hv : create_ai_summary lo r =
                  "Could not generate AI summary. Error: " ++ "Unknown error" := by
                simp [create_ai_summary, hcase]
              refine ⟨?_, ⟨"Unknown error", rfl, Or.inr hv⟩, rfl, rfl⟩
              rw [hv]
              exact append_left_ne_empty _ _ (by decide)
          | some eo =>
              have hv : create_ai_summary lo r =
                  "Could not generate AI summary. Error: "
                    ++ eo.message.getD "Unknown error" := by
                simp [create_ai_summary, hcase]
              refine ⟨?_, ⟨eo.message.getD "Unknown error", rfl, Or.inr hv⟩, rfl, rfl⟩
              rw [hv]
              exact append_left_ne_empty _ _ (by decide)
      | cons c tl =>
          cases c with
          | wellFormed t => rw [hcase] at h; simp [llmFailed] at h
          | malformed e =>
              have hv : create_ai_summary lo r = "AI summary unavailable: " ++ e := by
                simp [create_ai_summary, hcase]
              refine ⟨?_, ⟨e, rfl, Or.inl hv⟩, rfl, rfl⟩
              rw [hv]
              exact append_left_ne_empty _ e (by decide)

/-- Witness for C3 at the fallback BRCA1 record with the model transport
down. -/
theorem C3_summarizer_total_with_fallback_witness :
    create_ai_summary llmDown fallbackRecord ≠ ""
    ∧ (∃ m, llmErrText (llmDown (buildPrompt fallbackRecord)) = some m
        ∧ (create_ai_summary llmDown fallbackRecord = "AI summary unavailable: " ++ m
           ∨ create_ai_summary llmDown fallbackRecord
              = "Could not generate AI summary. Error: " ++ m))
    ∧ finishSearch (.record fallbackRecord) llmDown =
        .resp 200 (resultDict fallbackRecord (create_ai_summary llmDown fallbackRecord))
    ∧ (resultDict fallbackRecord (create_ai_summary llmDown fallbackRecord)).lookup "ai_summary" =
        some (.str (create_ai_summary llmDown fallbackRecord)) :=
  C3_summarizer_total_with_fallback fallbackRecord llmDown rfl

/-- C4 counterexample: at a name-search response with an empty id list the
error message the code produces is the capitalized `"Gene not found"`
(line 45), which is not the `"gene not found"` the claim states. -/
theorem C4_message_capitalization_counterexample :
    search_gene "BRCA1" (idlistResp []) esummaryDown = .error "Gene not found"
    ∧ "Gene not found" ≠ "gene not found" :=
  ⟨rfl, by decide⟩

/-- C4 (amended): for every name-search response that parses but whose
`esearchresult` lacks the `idlist` key or holds an empty list, the lookup
returns the error dictionary with message `"Gene not found"` and the
handler responds 404 with that body; the eSummary and language-model
oracles are universally quantified and absent from the outcome, so the
details fetch is never issued and the summarizer is called zero times. -/
theorem C4_empty_idlist_404_no_details_call :
    ∀ (s : String) (esearchGet : String → Upstream EsearchData)
      (d : EsearchData) (inner : EsearchInner)
      (esummaryGet : String → Upstream EsummaryData) (llmPost : String → LlmResult),
      ¬ pyUpper (pyStrip s) = "" →
      esearchGet (esearchTerm (pyUpper (pyStrip s))) = .ok d →
      d.esearchresult = some inner →
      (inner.idlist = none ∨ inner.idlist = some []) →
      search_gene (pyUpper (pyStrip s)) esearchGet esummaryGet = .error "Gene not found"
      ∧ handle_search (.obj (some (.str s))) esearchGet esummaryGet llmPost =
          .resp 404 [("error", .str "Gene not found")] := by
  intro s eo d inner so lo hne h1 h2 h3
  have hsg : search_gene (pyUpper (pyStrip s)) eo so = .error "Gene not found" := by
    cases h3 with
    | inl h => simp [search_gene, h1, h2, h]
    | inr h => simp [search_gene, h1, h2, h]
  exact ⟨hsg, handle_of_error search_gene s hne eo so lo _ hsg⟩

/-- Witness for C4 (amended) at the symbol ZZZNOTAGENE with an empty id
list. -/
theorem C4_empty_idlist_404_no_details_call_witness :
    search_gene "ZZZNOTAGENE" (idlistResp []) esummaryDown = .error "Gene not found"
    ∧ handle_search (.obj (some (.str "ZZZNOTAGENE"))) (idlistResp []) esummaryDown llmDown =
        .resp 404 [("error", .str "Gene not found")] :=
  C4_empty_idlist_404_no_details_call "ZZZNOTAGENE" (idlistResp [])
    ⟨some ⟨some []⟩⟩ ⟨some []⟩ esummaryDown llmDown (by decide) rfl rfl (Or.inr rfl)

/-- C5: the alias and MIM fields of the record built on lines 64-75 are
the comma-joined upstream lists when those are present and non-empty, and
exactly the literal markers `"None"` and `"Not available"` — never the
empty string — when the upstream list is absent or empty. -/
theorem C5_list_fields_fallback_markers :
    ∀ (gene_name gene_id : String) (gene_info : GeneInfo),
      ((gene_info.otheraliases = none ∨ gene_info.otheraliases = some []) →
        (buildRecord gene_name gene_id gene_info).aliases = "None")
      ∧ (∀ a rest, gene_info.otheraliases = some (a :: rest) →
          (buildRecord gene_name gene_id gene_info).aliases =
            String.intercalate ", " (a :: rest))
      ∧ ((gene_info.mim = none ∨ gene_info.mim = some []) →
          (buildRecord gene_name gene_id gene_info).mim_number = "Not available")
      ∧ (∀ m rest, gene_info.mim = some (m :: rest) →
          (buildRecord gene_name gene_id gene_info).mim_number =
            String.intercalate ", " ((m :: rest).map toString))
      ∧ ("None" : String) ≠ "" ∧ ("Not available" : String) ≠ "" := by
  intro n g gi
  refine ⟨?_, ?_, ?_, ?_, by decide, by decide⟩
  · rintro (h | h) <;> simp [buildRecord, h]
  · intro a rest h
    simp [buildRecord, h]
  · rintro (h | h) <;> simp [buildRecord, h]
  · intro m rest h
    simp [buildRecord, h]

/-- Witness for C5 at a record with both lists absent and one with both
lists present. -/
theorem C5_list_fields_fallback_markers_witness :
    (buildRecord "BRCA1" "672" emptyGeneInfo).aliases = "None"
    ∧ (buildRecord "BRCA1" "672" listyGeneInfo).aliases =
        String.intercalate ", " ["IRIS", "PSCA"]
    ∧ (buildRecord "BRCA1" "672" emptyGeneInfo).mim_number = "Not available"
    ∧ (buildRecord "BRCA1" "672" listyGeneInfo).mim_number =
        String.intercalate ", " (([113705] : List Nat).map toString) :=
  ⟨(C5_list_fields_fallback_markers "BRCA1" "672" emptyGeneInfo).1 (Or.inl rfl),
   (C5_list_fields_fallback_markers "BRCA1" "672" listyGeneInfo).2.1 "IRIS" ["PSCA"] rfl,
   (C5_list_fields_fallback_markers "BRCA1" "672" emptyGeneInfo).2.2.1 (Or.inl rfl),
   (C5_list_fields_fallback_markers "BRCA1" "672" listyGeneInfo).2.2.2.1 113705 [] rfl⟩

/-- C6: a transport or parse failure, or a response without the expected
key, at the name-search step makes `search_gene` return the error
dictionary carrying the underlying exception text, and the handler reports
it as 404 with that raw text — the same shape as not-found; the analogous
failures at the details step behave the same way through the
typo-corrected lookup (in the code as written line 48 prevents the details
step from ever being issued, so no failure can arise there). -/
theorem C6_upstream_failures_conflated_404 :
    ∀ (s : String) (esearchGet : String → Upstream EsearchData)
      (esummaryGet : String → Upstream EsummaryData)
      (llmPost : String → LlmResult) (msg : String),
      ¬ pyUpper (pyStrip s) = "" →
      (esearchGet (esearchTerm (pyUpper (pyStrip s))) = .exn msg →
        search_gene (pyUpper (pyStrip s)) esearchGet esummaryGet = .error msg
        ∧ handle_search (.obj (some (.str s))) esearchGet esummaryGet llmPost =
            .resp 404 [("error", .str msg)])
      ∧ (esearchGet (esearchTerm (pyUpper (pyStrip s))) = .ok ⟨none⟩ →
        search_gene (pyUpper (pyStrip s)) esearchGet esummaryGet =
          .error (keyError "esearchresult")
        ∧ handle_search (.obj (some (.str s))) esearchGet esummaryGet llmPost =
            .resp 404 [("error", .str (keyError "esearchresult"))])
      ∧ (∀ gene_id ids,
          esearchGet (esearchTerm (pyUpper (pyStrip s))) =
            .ok ⟨some ⟨some (gene_id :: ids)⟩⟩ →
          (esummaryGet gene_id = .exn msg →
            search_gene_fixed (pyUpper (pyStrip s)) esearchGet esummaryGet = .error msg
            ∧ handle_search_fixed (.obj (some (.str s))) esearchGet esummaryGet llmPost =
                .resp 404 [("error", .str msg)])
          ∧ (esummaryGet gene_id = .ok ⟨none⟩ →
            search_gene_fixed (pyUpper (pyStrip s)) esearchGet esummaryGet =
              .error (keyError "result")
            ∧ handle_search_fixed (.obj (some (.str s))) esearchGet esummaryGet llmPost =
                .resp 404 [("error", .str (keyError "result"))])
          ∧ (∀ res, esummaryGet gene_id = .ok ⟨some res⟩ → res.lookup gene_id = none →
            search_gene_fixed (pyUpper (pyStrip s)) esearchGet esummaryGet =
              .error (keyError gene_id)
            ∧ handle_search_fixed (.obj (some (.str s))) esearchGet esummaryGet llmPost =
                .resp 404 [("error", .str (keyError gene_id))])) := by
  intro s eo so lo msg hne
  refine ⟨?_, ?_, ?_⟩
  · intro h1
    have hsg : search_gene (pyUpper (pyStrip s)) eo so = .error msg := by
      simp [search_gene, h1]
    exact ⟨hsg, handle_of_error search_gene s hne eo so lo msg hsg⟩
  · intro h1
    have hsg : search_gene (pyUpper (pyStrip s)) eo so = .error (keyError "esearchresult") := by
      simp [search_gene, h1]
    exact ⟨hsg, handle_of_error search_gene s hne eo so lo _ hsg⟩
  · intro gene_id ids h1
    refine ⟨?_, ?_, ?_⟩
    · intro h2
      have hsg : search_gene_fixed (pyUpper (pyStrip s)) eo so = .error msg := by
        simp [search_gene_fixed, h1, h2]
      exact ⟨hsg, handle_of_error search_gene_fixed s hne eo so lo msg hsg⟩
    · intro h2
      have hsg : search_gene_fixed (pyUpper (pyStrip s)) eo so = .error (keyError "result") := by
        simp [search_gene_fixed, h1, h2]
      exact ⟨hsg, handle_of_error search_gene_fixed s hne eo so lo _ hsg⟩
    · intro res h2 h3
      have hsg : search_gene_fixed (pyUpper (pyStrip s)) eo so = .error (keyError gene_id) := by
        simp [search_gene_fixed, h1, h2, h3]
      exact ⟨hsg, handle_of_error search_gene_fixed s hne eo so lo _ hsg⟩

/-- Witness for C6: the name-search transport down, the name-search body
without its key, and the three details-step failures, each at the symbol
TP53 with concrete oracles. -/
theorem C6_upstream_failures_conflated_404_witness :
    (search_gene "TP53" esearchDown esummaryDown = .error "Connection refused"
      ∧ handle_search (.obj (some (.str "TP53"))) esearchDown esummaryDown llmDown =
          .resp 404 [("error", .str "Connection refused")])
    ∧ (search_gene "TP53" esearchNoKey esummaryDown = .error (keyError "esearchresult")
      ∧ handle_search (.obj (some (.str "TP53"))) esearchNoKey esummaryDown llmDown =
          .resp 404 [("error", .str (keyError "esearchresult"))])
    ∧ (search_gene_fixed "TP53" (idlistResp ["7157"]) esummaryDown = .error "Connection refused"
      ∧ handle_search_fixed (.obj (some (.str "TP53"))) (idlistResp ["7157"]) esummaryDown llmDown =
          .resp 404 [("error", .str "Connection refused")])
    ∧ (search_gene_fixed "TP53" (idlistResp ["7157"]) esummaryNoKey = .error (keyError "result")
      ∧ handle_search_fixed (.obj (some (.str "TP53"))) (idlistResp ["7157"]) esummaryNoKey llmDown =
          .resp 404 [("error", .str (keyError "result"))])
    ∧ (search_gene_fixed "TP53" (idlistResp ["7157"]) esummaryNoRecord = .error (keyError "7157")
      ∧ handle_search_fixed (.obj (some (.str "TP53"))) (idlistResp ["7157"]) esummaryNoRecord llmDown =
          .resp 404 [("error", .str (keyError "7157"))]) :=
  ⟨(C6_upstream_failures_conflated_404 "TP53" esearchDown esummaryDown llmDown
      "Connection refused" (by decide)).1 rfl,
   (C6_upstream_failures_conflated_404 "TP53" esearchNoKey esummaryDown llmDown
      "Connection refused" (by decide)).2.1 rfl,
   ((C6_upstream_failures_conflated_404 "TP53" (idlistResp ["7157"]) esummaryDown llmDown
      "Connection refused" (by decide)).2.2 "7157" [] rfl).1 rfl,
   ((C6_upstream_failures_conflated_404 "TP53" (idlistResp ["7157"]) esummaryNoKey llmDown
      "Connection refused" (by decide)).2.2 "7157" [] rfl).2.1 rfl,
   ((C6_upstream_failures_conflated_404 "TP53" (idlistResp ["7157"]) esummaryNoRecord llmDown
      "Connection refused" (by decide)).2.2 "7157" [] rfl).2.2 [] rfl rfl⟩

/-- C7 counterexample: a request whose body is the JSON value `null` makes
`request.get_json()` return `None`, and `.get` on it raises an
`AttributeError` that escapes the handler — the failure is not converted
to a structured response by the application code, refuting the claim for
bodies that are not JSON objects. -/
theorem C7_null_body_escapes_handler :
    handle_search .jsonNull esearchDown esummaryDown llmDown = .uncaught noneGetMsg
    ∧ (handle_search .jsonNull esearchDown esummaryDown llmDown).isResp = false :=
  ⟨rfl, rfl⟩

/-- C7 (amended): for every request whose body is a JSON object whose
`gene` value, when present, is a string, the handler always returns a
structured response — status 400, 404 or 200 — whatever the outbound
dependencies do; no exception escapes.  (Bodies that are absent,
malformed, `null`, non-objects, or carry a non-string `gene` value raise
out of the handler and are left to the framework.) -/
theorem C7_object_bodies_never_escape :
    ∀ (gene : Option String) (esearchGet : String → Upstream EsearchData)
      (esummaryGet : String → Upstream EsummaryData) (llmPost : String → LlmResult),
      (handle_search (.obj (gene.map ReqVal.str)) esearchGet esummaryGet llmPost).isResp = true
      ∧ ((handle_search (.obj (gene.map ReqVal.str)) esearchGet esummaryGet llmPost).statusOf = some 400
        ∨ (handle_search (.obj (gene.map ReqVal.str)) esearchGet esummaryGet llmPost).statusOf = some 404
        ∨ (handle_search (.obj (gene.map ReqVal.str)) esearchGet esummaryGet llmPost).statusOf = some 200) := by
  intro gene eo so lo
  cases gene with
  | none => exact ⟨rfl, Or.inl rfl⟩
  | some s =>
      have hmap : Option.map ReqVal.str (some s) = some (ReqVal.str s) := rfl
      rw [hmap]
      by_cases h : pyUpper (pyStrip s) = ""
      · have h400 : handle_search (.obj (some (.str s))) eo so lo =
            .resp 400 [("error", .str "Please enter a gene name")] := by
          simp [handle_search, handleSearchWith, h]
        rw [h400]
        exact ⟨rfl, Or.inl rfl⟩
      · have he : handle_search (.obj (some (.str s))) eo so lo =
            finishSearch (search_gene (pyUpper (pyStrip s)) eo so) lo :=
          handleSearchWith_nonempty search_gene s h eo so lo
        rw [he]
        have hf := finishSearch_isResp (search_gene (pyUpper (pyStrip s)) eo so) lo
        exact ⟨hf.1, Or.inr hf.2⟩

/-- C8: the GET /test handler is a constant with no inputs and no
dependencies; it responds 200, its `status` field is exactly
`"Server is running!"`, and it carries a message string and a model-name
string. -/
theorem C8_health_check_constant :
    test.statusOf = some 200
    ∧ (test.bodyOf.getD []).lookup "status" = some (.str "Server is running!")
    ∧ (∃ m, (test.bodyOf.getD []).lookup "message" = some (.str m))
    ∧ (∃ m, (test.bodyOf.getD []).lookup "ai_model" = some (.str m)) :=
  ⟨rfl, rfl, ⟨"Bio Re:code API v1.0", rfl⟩, ⟨"Google Gemini 2.0 Flash", rfl⟩⟩

/-- C9: on the body `{"gene": "brca1"}`, against an eSearch oracle that
answers only the query term built from the normalized symbol BRCA1, the
handler as written responds 404 carrying the line-48 `NameError` text —
lookup can never succeed in the code as written — while over the
typo-corrected lookup the same request yields 200 with `gene` exactly
`"BRCA1"` (so the symbol was uppercased before the lookup), `source`
exactly `"NCBI Gene Database"`, and a non-empty `ai_summary`. -/
theorem C9_brca1_normalized_end_to_end :
    handle_search (.obj (some (.str "brca1"))) brca1Esearch
        (detailsResp "672" emptyGeneInfo) (llmOk "BRCA1 repairs DNA.") =
      .resp 404 [("error", .str nameErrorMsg)]
    ∧ handle_search_fixed (.obj (some (.str "brca1"))) brca1Esearch
        (detailsResp "672" emptyGeneInfo) (llmOk "BRCA1 repairs DNA.") =
      .resp 200 (resultDict fallbackRecord "BRCA1 repairs DNA.")
    ∧ (resultDict fallbackRecord "BRCA1 repairs DNA.").lookup "gene" = some (.str "BRCA1")
    ∧ (resultDict fallbackRecord "BRCA1 repairs DNA.").lookup "source" =
        some (.str "NCBI Gene Database")
    ∧ (resultDict fallbackRecord "BRCA1 repairs DNA.").lookup "ai_summary" =
        some (.str "BRCA1 repairs DNA.")
    ∧ ("BRCA1 repairs DNA." : String) ≠ "" :=
  ⟨rfl, rfl, rfl, rfl, rfl, by decide⟩

/-- C10: every value of the lookup — through the code as written and
through the typo-corrected lookup — renders as a dictionary that either
holds the `error` key (and is exactly the one-key error object) or holds
exactly the ten record keys and no `error` key; the handler's
`"error" in gene_data` test holds exactly on lookup failure, and the 404
branch is taken exactly then. -/
theorem C10_error_key_discriminates :
    ∀ (s : String) (esearchGet : String → Upstream EsearchData)
      (esummaryGet : String → Upstream EsummaryData) (llmPost : String → LlmResult),
      dictShape (search_gene s esearchGet esummaryGet)
      ∧ errorDiscriminates (search_gene s esearchGet esummaryGet) llmPost
      ∧ dictShape (search_gene_fixed s esearchGet esummaryGet)
      ∧ errorDiscriminates (search_gene_fixed s esearchGet esummaryGet) llmPost :=
  fun _ _ _ lo =>
    ⟨dictShape_all _, errorDiscriminates_all _ lo,
     dictShape_all _, errorDiscriminates_all _ lo⟩

end GeneApp
